import Mathlib

/-!
Verification of `tools/make_remap_weights.py` (ACCESS-OM2 remapping-weight
batch driver).

The script is orchestration glue: it resolves grid-definition files, and
for each (atmosphere grid, ocean grid, method) combination writes two
temporary SCRIP grid-description files, invokes the external
`ESMF_RegridWeightGen` subprocess, renames the resulting weight file's
dimensions and variables via `ncrename`, adds a `remap_matrix` variable,
and moves the result to `{atm}_{ocean}_{method}.nc`.

The embedding below models:
  * a small file-system state (`FS`): an association list from paths to
    file contents plus a counter generating fresh `tempfile.mkstemp` names;
  * NetCDF weight files (`NcFile`): dimension and variable association
    lists (weight values are modelled as integers; the claims under
    verification are value-agnostic, only about copying and renaming);
  * the behaviour of the two external subprocesses as parameters
    (`EsmfBehavior`, `NcrenameBehavior`): their exit code, captured
    output, and - for the weight generator - the weight file it writes
    and the optional `PET0.RegridWeightGen.Log` contents;
  * the driver's argument validation and iteration (`main_resolve`,
    `run_loop`, `main_run`), including the module-scope names available
    for the atmosphere-grid constructor dispatch.
-/

set_option autoImplicit false

namespace MakeRemapWeights

/-- A file path: either a fresh name produced by `tempfile.mkstemp`
(identified by the value of the temp counter when it was created) or an
ordinary name in the working directory. `mkstemp` guarantees freshness,
which the two-constructor representation makes structural. -/
inductive Path where
  | temp (n : Nat)
  | named (s : String)
deriving DecidableEq, Repr

/-- The slice of an esmgrids grid object the script observes: its
tracer-cell mask `mask_t` (a 2D array, modelled as a list of rows of
integers). All other grid data is opaque to the claims. -/
structure Grid where
  mask_t : List (List Int)
deriving DecidableEq, Repr

/-- Data held by one NetCDF variable: a 1-D or a 2-D array. -/
inductive VarData where
  | oneD (xs : List Int)
  | twoD (xs : List (List Int))
deriving DecidableEq, Repr

/-- A NetCDF file: named dimensions (with sizes) and named variables. -/
structure NcFile where
  dims : List (String × Nat)
  vars : List (String × VarData)
deriving DecidableEq, Repr

/-- Contents of a file in the modelled file system. `empty` is the empty
file created by `tempfile.mkstemp` before anything is written to it. -/
inductive FileContent where
  | empty
  | scrip (g : Grid) (mask : List (List Int))
  | nc (f : NcFile)
deriving DecidableEq, Repr

/-- First entry of an association list with the given path key. -/
def lookupEntry : List (Path × FileContent) → Path → Option FileContent
  | [], _ => none
  | e :: rest, p => if e.1 = p then some e.2 else lookupEntry rest p

/-- Drop every entry with the given path key. -/
def removeEntry : List (Path × FileContent) → Path → List (Path × FileContent)
  | [], _ => []
  | e :: rest, p => if e.1 = p then removeEntry rest p else e :: removeEntry rest p

/-- File-system state: existing files with their contents, and the
counter from which `tempfile.mkstemp` draws fresh names. -/
structure FS where
  files : List (Path × FileContent)
  tmpCounter : Nat
deriving DecidableEq, Repr

/-- `tempfile.mkstemp`: creates a fresh empty file and returns its path. -/
def mkstemp (fs : FS) : Path × FS :=
  (Path.temp fs.tmpCounter,
   { files := (Path.temp fs.tmpCounter, FileContent.empty) :: fs.files,
     tmpCounter := fs.tmpCounter + 1 })

/-- Read a file's contents, `none` when the file does not exist. -/
def readFile (fs : FS) (p : Path) : Option FileContent :=
  lookupEntry fs.files p

/-- `os.remove`. -/
def removeFile (fs : FS) (p : Path) : FS :=
  { files := removeEntry fs.files p, tmpCounter := fs.tmpCounter }

/-- Create or overwrite a file with the given contents. -/
def writeFile (fs : FS) (p : Path) (c : FileContent) : FS :=
  { files := (p, c) :: removeEntry fs.files p, tmpCounter := fs.tmpCounter }

/-- `np.zeros_like(m, dtype=int)`: an all-zero array of the same shape. -/
def zeros_like (m : List (List Int)) : List (List Int) :=
  m.map (fun row => row.map (fun _ => (0 : Int)))

/-- Modelled from the spec: the esmgrids library's `write_scrip` (the
library lives outside this repository). It serializes a grid to a SCRIP
grid-description file, writing the optional `mask` argument when given
and the grid's own `mask_t` otherwise. -/
def write_scrip (g : Grid) (mask : Option (List (List Int))) : FileContent :=
  FileContent.scrip g (match mask with
    | some m => m
    | none => g.mask_t)

/-! ### `convert_to_scrip_output`: the weight-file format converter -/

/-- The `-d old,new` dimension renames passed to `ncrename` in
`convert_to_scrip_output`'s command string. -/
def dim_rename_table : List (String × String) :=
  [("n_a", "src_grid_size"), ("n_b", "dst_grid_size"), ("n_s", "num_links"),
   ("nv_a", "src_grid_corners"), ("nv_b", "dst_grid_corners")]

/-- The `-v old,new` variable renames passed to `ncrename` in
`convert_to_scrip_output`'s command string. -/
def var_rename_table : List (String × String) :=
  [("yc_a", "src_grid_center_lat"), ("yc_b", "dst_grid_center_lat"),
   ("xc_a", "src_grid_center_lon"), ("xc_b", "dst_grid_center_lon"),
   ("yv_a", "src_grid_corner_lat"), ("xv_a", "src_grid_corner_lon"),
   ("yv_b", "dst_grid_corner_lat"), ("xv_b", "dst_grid_corner_lon"),
   ("mask_a", "src_grid_imask"), ("mask_b", "dst_grid_imask"),
   ("area_a", "src_grid_area"), ("area_b", "dst_grid_area"),
   ("frac_a", "src_grid_frac"), ("frac_b", "dst_grid_frac"),
   ("col", "src_address"), ("row", "dst_address")]

/-- Apply a rename table to one name: names outside the table are kept. -/
def rename_with (table : List (String × String)) (n : String) : String :=
  match table.lookup n with
  | some n2 => n2
  | none => n

/-- The effect of the `ncrename` invocation on a weight file: dimension
names go through the `-d` table, variable names through the `-v` table;
sizes and data are untouched. -/
def ncrename_file (f : NcFile) : NcFile :=
  { dims := f.dims.map (fun p => (rename_with dim_rename_table p.1, p.2)),
    vars := f.vars.map (fun p => (rename_with var_rename_table p.1, p.2)) }

/-- Size of a named dimension (0 when absent; the absent case is an
I/O error in the real code and is excluded by well-formedness
hypotheses where it matters). -/
def dimSize (f : NcFile) (n : String) : Nat :=
  (f.dims.lookup n).getD 0

/-- The netCDF4 fill value a freshly created `f8` variable holds before
any data is assigned. Its identity is irrelevant to the claims (only
column 0 is ever asserted about); it is modelled as 0. -/
def createVariable_fill : Int := 0

/-- The numpy assignment `m[:, 0] = xs`: replace the first element of
each row by the corresponding element of `xs` (well-formed only when
`xs.length` equals the number of rows, which the real code guarantees
via the `n_s` dimension). -/
def setColumn0 (m : List (List Int)) (xs : List Int) : List (List Int) :=
  List.zipWith (fun x row =>
    match row with
    | [] => []
    | _ :: t => x :: t) xs m

/-- First column of a 2-D array. -/
def column0 (m : List (List Int)) : List Int :=
  m.map (fun r => r.headD 0)

/-- The sparse weight-value variable `S` of the original weight file. -/
def getS (f : NcFile) : List Int :=
  match f.vars.lookup "S" with
  | some (VarData.oneD xs) => xs
  | _ => []

/-- The body of the converter's `with` block: create `remap_matrix`
with shape `(num_links, num_wgts)` in the renamed file and assign the
original file's `S` values to its first column. -/
def add_remap_matrix (f_new f_old : NcFile) : NcFile :=
  { f_new with
    vars := f_new.vars ++
      [("remap_matrix",
        VarData.twoD (setColumn0
          (List.replicate (dimSize f_new "num_links")
            (List.replicate (dimSize f_new "num_wgts") createVariable_fill))
          (getS f_old)))] }

/-- The converter's NetCDF open/copy/cleanup step: open the original
and the renamed file (an I/O error when either is missing or not a
NetCDF file), add the `remap_matrix` variable, delete the original and
return the renamed file's path. -/
def nc_copy_step (fs : FS) (weights new_weights : Path) :
    Except String (Path × FS) :=
  match readFile fs weights, readFile fs new_weights with
  | some (FileContent.nc f_old), some (FileContent.nc f_ren) =>
    Except.ok (new_weights,
      removeFile
        (writeFile fs new_weights (FileContent.nc (add_remap_matrix f_ren f_old)))
        weights)
  | _, _ => Except.error "IOError"

/-- Outcome of the external `ncrename` subprocess: exit code and
captured output. Exit code 0 means the renamed file was written. -/
structure NcrenameBehavior where
  rc : Nat
  output : String
deriving DecidableEq, Repr

/-- `convert_to_scrip_output`: make a fresh temp name, remove the empty
temp file (so `ncrename` does not prompt), run `ncrename` old→new
(on failure print its output to stderr and continue), then run the
NetCDF open/copy step. Returns the step's result together with the
stderr lines printed. -/
def convert_to_scrip_output (R : NcrenameBehavior) (fs : FS) (weights : Path) :
    Except String (Path × FS) × List String :=
  let mk := mkstemp fs
  let new_weights := mk.1
  let fs2 := removeFile mk.2 new_weights
  if R.rc = 0 then
    let fs3 :=
      match readFile fs2 weights with
      | some (FileContent.nc f_old) =>
        writeFile fs2 new_weights (FileContent.nc (ncrename_file f_old))
      | _ => fs2
    (nc_copy_step fs3 weights new_weights, [])
  else
    (nc_copy_step fs2 weights new_weights, [R.output])

/-! ### `create_weights`: the weight-computation invoker -/

/-- Behaviour of the external `ESMF_RegridWeightGen` subprocess: exit
code, captured output, the weight file it writes on success, and the
contents of `PET0.RegridWeightGen.Log` when that file exists in the
current directory after a failure. -/
structure EsmfBehavior where
  rc : Nat
  output : String
  result : NcFile
  logContents : Option String
deriving DecidableEq, Repr

/-- The first half of `create_weights`: make the three temp files and
write the two SCRIP grid-description files, substituting an all-zero
mask for a side whose `unmasked` flag is set. Returns the three paths
and the resulting file-system state. -/
def create_weights_setup (fs : FS) (src_grid dest_grid : Grid)
    (unmasked_src unmasked_dest : Bool) : Path × Path × Path × FS :=
  let m1 := mkstemp fs
  let src_grid_scrip := m1.1
  let m2 := mkstemp m1.2
  let dest_grid_scrip := m2.1
  let m3 := mkstemp m2.2
  let regrid_weights := m3.1
  let fs4 := writeFile m3.2 src_grid_scrip
    (if unmasked_src then
      write_scrip src_grid (some (zeros_like src_grid.mask_t))
     else
      write_scrip src_grid none)
  let fs5 := writeFile fs4 dest_grid_scrip
    (if unmasked_dest then
      write_scrip dest_grid (some (zeros_like dest_grid.mask_t))
     else
      write_scrip dest_grid none)
  (src_grid_scrip, dest_grid_scrip, regrid_weights, fs5)

/-- `create_weights`: set up the grid-description files, then run the
external weight generator. On success (exit code 0) the generator has
written the weight file; the two grid-description files are deleted and
the weight file's path is returned. On failure the function prints the
return code, the captured output and, when present, the log-file
contents to stderr, and returns the `None` sentinel (no exception).
The `method` and `ignore_unmapped` arguments only shape the external
command line, so they do not affect the modelled state. Returns
(returned value, file system, stderr lines). -/
def create_weights (E : EsmfBehavior) (fs : FS) (src_grid dest_grid : Grid)
    (method : String) (ignore_unmapped unmasked_src unmasked_dest : Bool) :
    Option Path × FS × List String :=
  let r := create_weights_setup fs src_grid dest_grid unmasked_src unmasked_dest
  let src_grid_scrip := r.1
  let dest_grid_scrip := r.2.1
  let regrid_weights := r.2.2.1
  let fs5 := r.2.2.2
  if E.rc = 0 then
    (some regrid_weights,
     removeFile
       (removeFile (writeFile fs5 regrid_weights (FileContent.nc E.result))
         src_grid_scrip)
       dest_grid_scrip,
     [])
  else
    (none, fs5,
     ["Error: ESMF_RegridWeightGen failed ret " ++ toString E.rc, E.output] ++
     (match E.logContents with
      | some contents => ["Contents of PET0.RegridWeightGen.Log:", contents]
      | none => []))

/-- Default value of `create_weights`'s `ignore_unmapped` parameter. -/
def default_ignore_unmapped : Bool := false

/-- Default value of `create_weights`'s `unmasked_src` parameter. -/
def default_unmasked_src : Bool := true

/-- Default value of `create_weights`'s `unmasked_dest` parameter. -/
def default_unmasked_dest : Bool := false

/-- `shutil.move`: rename a file, overwriting any existing target. A
missing source raises in the real code; the modelled call sites only
reach this with an existing source. -/
def move_file (fs : FS) (src dst : Path) : FS :=
  match readFile fs src with
  | some c => writeFile (removeFile fs src) dst c
  | none => fs

/-- One iteration of the driver's triple loop, after the grid objects
have been constructed: call `create_weights` (with the defaulted flags,
as the driver passes only `method=method`), feed its result to
`convert_to_scrip_output` (the sentinel is not checked: a `None` weight
path makes the converter's NetCDF step raise, modelled as the error
branch), and move the converted file to `{atm}_{ocean}_{method}.nc`. -/
def run_combination (E : EsmfBehavior) (R : NcrenameBehavior) (fs : FS)
    (src_grid dest_grid : Grid) (atm ocean method : String) :
    Except String FS :=
  let cw := create_weights E fs src_grid dest_grid method
    default_ignore_unmapped default_unmasked_src default_unmasked_dest
  match cw.1 with
  | some weights =>
    match (convert_to_scrip_output R cw.2.1 weights).1 with
    | Except.ok pr =>
      Except.ok (move_file pr.2 pr.1
        (Path.named (atm ++ "_" ++ ocean ++ "_" ++ method ++ ".nc")))
    | Except.error e => Except.error e
  | none => Except.error "TypeError"

/-! ### `main`: the batch driver -/

/-- The fixed atmosphere-grid option set. -/
def atm_options : List String := ["CORE2", "JRA55", "JRA55_runoff"]

/-- The fixed ocean-grid option set. -/
def ocean_options : List String := ["MOM1", "MOM01", "MOM025"]

/-- The fixed method option set. -/
def method_options : List String := ["patch", "conserve2nd"]

/-- The grid-constructor names the script binds at module scope when
importing from esmgrids (`MomGrid`, `Core2Grid`, `Jra55Grid`,
`Jra55RiverGrid`). Referring to any other name raises `NameError`. -/
def module_scope_names : List String :=
  ["MomGrid", "Core2Grid", "Jra55Grid", "Jra55RiverGrid"]

/-- The constructor name the loop body refers to for an atmosphere
grid: `Core2Grid` for CORE2, `Jra55Grid` for JRA55, and the name
`Jra552RiverGrid` for everything else (the `else` branch of the
dispatch). -/
def atm_constructor_name (atm : String) : String :=
  if atm = "CORE2" then "Core2Grid"
  else if atm = "JRA55" then "Jra55Grid"
  else "Jra552RiverGrid"

/-- The Cartesian product iterated by the driver's nested loops, in
loop order: atmosphere outermost, method innermost. -/
def combo_product (atms oceans methods : List String) :
    List (String × String × String) :=
  atms.flatMap (fun a => oceans.flatMap (fun o => methods.map (fun m => (a, o, m))))

/-- The driver's triple loop, abstracted to its control flow: each
combination first resolves the atmosphere constructor name; if that
name is not bound at module scope the iteration raises `NameError`
(aborting the rest of the loop), otherwise the combination runs to its
final artifact `{atm}_{ocean}_{method}.nc` (per-combination file-state
semantics are given by `run_combination`). Returns the artifact names
produced before any abort, and the undefined name when one was hit. -/
def run_loop : List (String × String × String) → List String × Option String
  | [] => ([], none)
  | (a, o, m) :: rest =>
    let cname := atm_constructor_name a
    if cname ∈ module_scope_names then
      let r := run_loop rest
      ((a ++ "_" ++ o ++ "_" ++ m ++ ".nc") :: r.1, r.2)
    else
      ([], some cname)

/-- The parsed command line: the two required positional directories
and the three optional filters. -/
structure Args where
  input_dir : String
  jra55_input : String
  atm : Option String
  ocean : Option String
  method : Option String
deriving DecidableEq, Repr

/-- Modelled from the spec: the usage/help text printed by argparse's
`parser.print_help()` (its exact wording is produced by the external
argparse library). -/
def usage_text : String := "usage: make_remap_weights.py"

/-- The driver's filter-resolution section, in source order: a given
`--atm` outside `atm_options` prints an error plus the usage text and
returns 1 (modelled as the error branch carrying the printed lines);
likewise for `--ocean` (whose message is also the string
`Error: bad atm grid.` in the source); an omitted filter expands to the
full option list. `--method` is expanded or wrapped without any
validation. -/
def main_resolve (args : Args) :
    Except (List String) (List String × List String × List String) :=
  let atmRes : Except (List String) (List String) :=
    match args.atm with
    | none => Except.ok atm_options
    | some v =>
      if v ∈ atm_options then Except.ok [v]
      else Except.error ["Error: bad atm grid.", usage_text]
  match atmRes with
  | Except.error e => Except.error e
  | Except.ok atms =>
    let oceanRes : Except (List String) (List String) :=
      match args.ocean with
      | none => Except.ok ocean_options
      | some v =>
        if v ∈ ocean_options then Except.ok [v]
        else Except.error ["Error: bad atm grid.", usage_text]
    match oceanRes with
    | Except.error e => Except.error e
    | Except.ok oceans =>
      let methods : List String :=
        match args.method with
        | none => method_options
        | some v => [v]
      Except.ok (atms, oceans, methods)

/-- The whole driver run: resolve the filters (exit code 1, printed
messages, and no output files on a validation failure), then iterate
the Cartesian product. An uncaught `NameError` in the loop terminates
the process with exit code 1 after the artifacts produced so far.
Returns (exit code, printed lines, output artifact names created). -/
def main_run (args : Args) : Nat × List String × List String :=
  match main_resolve args with
  | Except.error msgs => (1, msgs, [])
  | Except.ok axes =>
    let r := run_loop (combo_product axes.1 axes.2.1 axes.2.2)
    match r.2 with
    | none => (0, [], r.1)
    | some n => (1, ["NameError: name " ++ n ++ " is not defined"], r.1)

/-! ### Helper lemmas about the file-system model -/

theorem lookupEntry_removeEntry_self (l : List (Path × FileContent)) (p : Path) :
    lookupEntry (removeEntry l p) p = none := by
  induction l with
  | nil => rfl
  | cons e rest ih =>
    by_cases h : e.1 = p
    · simpa [removeEntry, h] using ih
    · simpa [removeEntry, lookupEntry, h] using ih

theorem lookupEntry_removeEntry_other (l : List (Path × FileContent)) (p q : Path)
    (h : q ≠ p) : lookupEntry (removeEntry l p) q = lookupEntry l q := by
  induction l with
  | nil => rfl
  | cons e rest ih =>
    by_cases h1 : e.1 = p
    · have h2 : ¬ (e.1 = q) := by
        rw [h1]
        exact fun he => h he.symm
      have h3 : ¬ (p = q) := fun he => h he.symm
      simp [removeEntry, lookupEntry, h1, h2, h3, ih]
    · by_cases h2 : e.1 = q
      · simp [removeEntry, lookupEntry, h1, h2, h]
      · simp [removeEntry, lookupEntry, h1, h2, h, ih]

theorem readFile_writeFile_self (fs : FS) (p : Path) (c : FileContent) :
    readFile (writeFile fs p c) p = some c := by
  simp [readFile, writeFile, lookupEntry]

theorem readFile_writeFile_other (fs : FS) (p q : Path) (c : FileContent) (h : q ≠ p) :
    readFile (writeFile fs p c) q = readFile fs q := by
  have h2 : p ≠ q := fun he => h he.symm
  simp [readFile, writeFile, lookupEntry, h2, lookupEntry_removeEntry_other _ _ _ h]

theorem readFile_removeFile_self (fs : FS) (p : Path) :
    readFile (removeFile fs p) p = none := by
  simp [readFile, removeFile, lookupEntry_removeEntry_self]

/-- After `create_weights_setup`, the source grid-description file holds
the source grid with the zero mask when `unmasked_src` is set and with
the real mask otherwise. -/
theorem create_weights_setup_read_src (fs : FS) (src dest : Grid) (us ud : Bool) :
    readFile (create_weights_setup fs src dest us ud).2.2.2
        (create_weights_setup fs src dest us ud).1 =
      some (FileContent.scrip src (if us then zeros_like src.mask_t else src.mask_t)) := by
  unfold create_weights_setup
  simp only [mkstemp]
  rw [readFile_writeFile_other _ _ _ _ (by simp), readFile_writeFile_self]
  cases us <;> simp [write_scrip]

/-- After `create_weights_setup`, the destination grid-description file
holds the destination grid with the zero mask when `unmasked_dest` is
set and with the real mask otherwise. -/
theorem create_weights_setup_read_dest (fs : FS) (src dest : Grid) (us ud : Bool) :
    readFile (create_weights_setup fs src dest us ud).2.2.2
        (create_weights_setup fs src dest us ud).2.1 =
      some (FileContent.scrip dest (if ud then zeros_like dest.mask_t else dest.mask_t)) := by
  unfold create_weights_setup
  simp only [mkstemp]
  rw [readFile_writeFile_self]
  cases ud <;> simp [write_scrip]

theorem zeros_like_shape (m : List (List Int)) :
    (zeros_like m).map List.length = m.map List.length := by
  simp [zeros_like]

theorem zeros_like_all_zero (m : List (List Int)) :
    ∀ row ∈ zeros_like m, ∀ x ∈ row, x = 0 := by
  intro row hrow x hx
  simp only [zeros_like, List.mem_map] at hrow
  obtain ⟨r, _, hr⟩ := hrow
  subst hr
  simp only [List.mem_map] at hx
  obtain ⟨a, _, ha⟩ := hx
  exact ha.symm

/-! ### Claim C4 -/

/-- C4: in `create_weights`, for each side (source or destination), if
that side's unmasked flag is set then the grid-description file for
that side is written with an all-zero mask array of the same shape as
the grid's real mask, and if the flag is not set the grid is written
with its real mask. -/
theorem C4_scrip_mask_override (fs : FS) (src dest : Grid) (us ud : Bool) :
    readFile (create_weights_setup fs src dest us ud).2.2.2
        (create_weights_setup fs src dest us ud).1 =
      some (FileContent.scrip src (if us then zeros_like src.mask_t else src.mask_t)) ∧
    readFile (create_weights_setup fs src dest us ud).2.2.2
        (create_weights_setup fs src dest us ud).2.1 =
      some (FileContent.scrip dest (if ud then zeros_like dest.mask_t else dest.mask_t)) ∧
    (zeros_like src.mask_t).map List.length = src.mask_t.map List.length ∧
    (∀ row ∈ zeros_like src.mask_t, ∀ x ∈ row, x = 0) ∧
    (zeros_like dest.mask_t).map List.length = dest.mask_t.map List.length ∧
    (∀ row ∈ zeros_like dest.mask_t, ∀ x ∈ row, x = 0) :=
  ⟨create_weights_setup_read_src fs src dest us ud,
   create_weights_setup_read_dest fs src dest us ud,
   zeros_like_shape _, zeros_like_all_zero _,
   zeros_like_shape _, zeros_like_all_zero _⟩

/-- C4, instantiated: a 1×2 source grid written unmasked gets the mask
[[0, 0]], while the destination keeps its real mask [[5]]. -/
theorem C4_scrip_mask_override_witness :
    readFile (create_weights_setup ⟨[], 0⟩ ⟨[[3, 4]]⟩ ⟨[[5]]⟩ true false).2.2.2
        (create_weights_setup ⟨[], 0⟩ ⟨[[3, 4]]⟩ ⟨[[5]]⟩ true false).1 =
      some (FileContent.scrip ⟨[[3, 4]]⟩ [[0, 0]]) ∧
    readFile (create_weights_setup ⟨[], 0⟩ ⟨[[3, 4]]⟩ ⟨[[5]]⟩ true false).2.2.2
        (create_weights_setup ⟨[], 0⟩ ⟨[[3, 4]]⟩ ⟨[[5]]⟩ true false).2.1 =
      some (FileContent.scrip ⟨[[5]]⟩ [[5]]) := by
  have h := C4_scrip_mask_override ⟨[], 0⟩ ⟨[[3, 4]]⟩ ⟨[[5]]⟩ true false
  exact ⟨by simpa [zeros_like] using h.1, by simpa using h.2.1⟩

/-! ### Claim C10 -/

/-- C10: the driver calls `create_weights` with only `method` given, so
the defaulted flags apply: `unmasked_src = True`, `unmasked_dest =
False` and `ignore_unmapped = False`. Consequently for every processed
combination the source (atmosphere) grid-description file is written
with the all-zero mask while the destination (ocean) grid keeps its
real mask, and the ignore-unmapped flag is never exercised. -/
theorem C10_driver_default_flags (fs : FS) (src dest : Grid) :
    default_unmasked_src = true ∧ default_unmasked_dest = false ∧
    default_ignore_unmapped = false ∧
    readFile
        (create_weights_setup fs src dest default_unmasked_src default_unmasked_dest).2.2.2
        (create_weights_setup fs src dest default_unmasked_src default_unmasked_dest).1 =
      some (FileContent.scrip src (zeros_like src.mask_t)) ∧
    readFile
        (create_weights_setup fs src dest default_unmasked_src default_unmasked_dest).2.2.2
        (create_weights_setup fs src dest default_unmasked_src default_unmasked_dest).2.1 =
      some (FileContent.scrip dest dest.mask_t) := by
  refine ⟨rfl, rfl, rfl, ?_, ?_⟩
  · simpa [default_unmasked_src, default_unmasked_dest] using
      create_weights_setup_read_src fs src dest default_unmasked_src default_unmasked_dest
  · simpa [default_unmasked_src, default_unmasked_dest] using
      create_weights_setup_read_dest fs src dest default_unmasked_src default_unmasked_dest

/-- C10, instantiated at a concrete pair of grids. -/
theorem C10_driver_default_flags_witness :
    readFile
        (create_weights_setup ⟨[], 0⟩ ⟨[[7]]⟩ ⟨[[8, 9]]⟩ default_unmasked_src
          default_unmasked_dest).2.2.2
        (create_weights_setup ⟨[], 0⟩ ⟨[[7]]⟩ ⟨[[8, 9]]⟩ default_unmasked_src
          default_unmasked_dest).1 =
      some (FileContent.scrip ⟨[[7]]⟩ [[0]]) ∧
    readFile
        (create_weights_setup ⟨[], 0⟩ ⟨[[7]]⟩ ⟨[[8, 9]]⟩ default_unmasked_src
          default_unmasked_dest).2.2.2
        (create_weights_setup ⟨[], 0⟩ ⟨[[7]]⟩ ⟨[[8, 9]]⟩ default_unmasked_src
          default_unmasked_dest).2.1 =
      some (FileContent.scrip ⟨[[8, 9]]⟩ [[8, 9]]) := by
  have h := C10_driver_default_flags ⟨[], 0⟩ ⟨[[7]]⟩ ⟨[[8, 9]]⟩
  exact ⟨by simpa [zeros_like] using h.2.2.2.1, h.2.2.2.2⟩

/-! ### Claim C5 -/

/-- C5: when the external weight generator exits non-zero,
`create_weights` prints the return code and captured output to the
error stream, additionally prints the contents of
`PET0.RegridWeightGen.Log` when that file exists, and returns the
`None` failure sentinel (no exception: the function still returns a
value, with the file system as the setup stage left it). -/
theorem C5_esmf_failure (E : EsmfBehavior) (fs : FS) (src dest : Grid)
    (method : String) (iu us ud : Bool) (h : E.rc ≠ 0) :
    (create_weights E fs src dest method iu us ud).1 = none ∧
    (create_weights E fs src dest method iu us ud).2.2 =
      ["Error: ESMF_RegridWeightGen failed ret " ++ toString E.rc, E.output] ++
      (match E.logContents with
       | some contents => ["Contents of PET0.RegridWeightGen.Log:", contents]
       | none => []) ∧
    (create_weights E fs src dest method iu us ud).2.1 =
      (create_weights_setup fs src dest us ud).2.2.2 := by
  unfold create_weights
  simp [h]

/-- C5, instantiated: return code 7, output "boom", log present. -/
theorem C5_esmf_failure_witness :
    (create_weights ⟨7, "boom", ⟨[], []⟩, some "logtext"⟩ ⟨[], 0⟩ ⟨[[1]]⟩ ⟨[[2]]⟩
      "patch" false true false).1 = none ∧
    (create_weights ⟨7, "boom", ⟨[], []⟩, some "logtext"⟩ ⟨[], 0⟩ ⟨[[1]]⟩ ⟨[[2]]⟩
      "patch" false true false).2.2 =
      ["Error: ESMF_RegridWeightGen failed ret 7", "boom",
       "Contents of PET0.RegridWeightGen.Log:", "logtext"] := by
  have h := C5_esmf_failure ⟨7, "boom", ⟨[], []⟩, some "logtext"⟩ ⟨[], 0⟩ ⟨[[1]]⟩ ⟨[[2]]⟩
    "patch" false true false (by decide)
  refine ⟨h.1, ?_⟩
  decide

/-! ### Claim C9 -/

/-- When the renamed file is missing, the converter's NetCDF open/copy
step fails with an I/O error. -/
theorem nc_copy_step_missing_new (fs : FS) (w nw : Path)
    (h : readFile fs nw = none) : nc_copy_step fs w nw = Except.error "IOError" := by
  unfold nc_copy_step
  rw [h]
  cases hr : readFile fs w with
  | none => rfl
  | some c => cases c <;> rfl

/-- C9: if the rename subprocess exits non-zero, the converter prints
the subprocess output to the error stream and continues executing into
the NetCDF open/copy step on the renamed file, which was never created
(so that step, not the rename, is what fails). -/
theorem C9_ncrename_failure (R : NcrenameBehavior) (fs : FS) (weights : Path)
    (h : R.rc ≠ 0) :
    convert_to_scrip_output R fs weights =
      (nc_copy_step (removeFile (mkstemp fs).2 (mkstemp fs).1) weights (mkstemp fs).1,
       [R.output]) ∧
    readFile (removeFile (mkstemp fs).2 (mkstemp fs).1) (mkstemp fs).1 = none ∧
    (convert_to_scrip_output R fs weights).1 = Except.error "IOError" := by
  have hmiss : readFile (removeFile (mkstemp fs).2 (mkstemp fs).1) (mkstemp fs).1 = none :=
    readFile_removeFile_self _ _
  have heq : convert_to_scrip_output R fs weights =
      (nc_copy_step (removeFile (mkstemp fs).2 (mkstemp fs).1) weights (mkstemp fs).1,
       [R.output]) := by
    unfold convert_to_scrip_output
    simp [h]
  refine ⟨heq, hmiss, ?_⟩
  rw [heq]
  exact nc_copy_step_missing_new _ _ _ hmiss

/-- C9, instantiated: rename exit code 3, output "renfail". -/
theorem C9_ncrename_failure_witness :
    (convert_to_scrip_output ⟨3, "renfail"⟩ ⟨[], 0⟩ (Path.named "w.nc")).2 = ["renfail"] ∧
    (convert_to_scrip_output ⟨3, "renfail"⟩ ⟨[], 0⟩ (Path.named "w.nc")).1 =
      Except.error "IOError" := by
  have h := C9_ncrename_failure ⟨3, "renfail"⟩ ⟨[], 0⟩ (Path.named "w.nc") (by decide)
  exact ⟨by rw [h.1], h.2.2⟩

/-! ### Claims C1 to C3 -/

/-- A given `--atm` value outside the atmosphere option set, or a given
`--ocean` value outside the ocean option set, makes the filter
resolution fail with the error message and the usage text (the source
prints `Error: bad atm grid.` for both axes). -/
theorem main_resolve_invalid (args : Args)
    (h : (∃ v, args.atm = some v ∧ v ∉ atm_options) ∨
         (∃ v, args.ocean = some v ∧ v ∉ ocean_options)) :
    main_resolve args = Except.error ["Error: bad atm grid.", usage_text] := by
  rcases h with ⟨v, hv, hmem⟩ | ⟨v, hv, hmem⟩
  · unfold main_resolve
    rw [hv]
    simp [hmem]
  · unfold main_resolve
    rw [hv]
    cases ha : args.atm with
    | none => simp [hmem]
    | some u =>
      by_cases hu : u ∈ atm_options
      · simp [hmem, hu]
      · simp [hu]

/-- C1: evaluating the driver on the no-filter invocation. The
Cartesian product does contain all 18 combinations, but the dispatch
for the `JRA55_runoff` atmosphere grid refers to the name
`Jra552RiverGrid`, which is not bound at module scope (the import binds
`Jra55RiverGrid`), so the loop raises `NameError` when it reaches the
first `JRA55_runoff` combination: the process exits with code 1 after
producing only the 12 CORE2/JRA55 artifacts. -/
theorem C1_runoff_dispatch_name_error :
    (combo_product atm_options ocean_options method_options).length = 18 ∧
    atm_constructor_name "JRA55_runoff" = "Jra552RiverGrid" ∧
    "Jra552RiverGrid" ∉ module_scope_names ∧
    "Jra55RiverGrid" ∈ module_scope_names ∧
    (run_loop (combo_product atm_options ocean_options method_options)).2 =
      some "Jra552RiverGrid" ∧
    main_run ⟨"indir", "jradir", none, none, none⟩ =
      (1, ["NameError: name Jra552RiverGrid is not defined"],
       ["CORE2_MOM1_patch.nc", "CORE2_MOM1_conserve2nd.nc", "CORE2_MOM01_patch.nc",
        "CORE2_MOM01_conserve2nd.nc", "CORE2_MOM025_patch.nc", "CORE2_MOM025_conserve2nd.nc",
        "JRA55_MOM1_patch.nc", "JRA55_MOM1_conserve2nd.nc", "JRA55_MOM01_patch.nc",
        "JRA55_MOM01_conserve2nd.nc", "JRA55_MOM025_patch.nc", "JRA55_MOM025_conserve2nd.nc"]) := by
  decide

/-- C2 counterexample: `--method bilinear` is outside the fixed method
option set, yet with valid `--atm CORE2 --ocean MOM1` the driver
accepts it, processes the combination, and exits with code 0 - no
usage message, no non-zero exit. -/
theorem C2_method_not_validated :
    "bilinear" ∉ method_options ∧
    main_run ⟨"indir", "jradir", some "CORE2", some "MOM1", some "bilinear"⟩ =
      (0, [], ["CORE2_MOM1_bilinear.nc"]) := by
  decide

/-- C2 amended: only the `--atm` and `--ocean` filters are validated
against their option sets (out-of-set values print the error and the
usage text and exit with code 1); a given `--method` value is never
validated - any string is accepted and becomes the single method-axis
value. -/
theorem C2_amended_filter_validation (args : Args) (v : String) :
    (args.atm = some v → v ∉ atm_options →
      (main_run args).1 = 1 ∧ usage_text ∈ (main_run args).2.1) ∧
    (args.ocean = some v → v ∉ ocean_options →
      (main_run args).1 = 1 ∧ usage_text ∈ (main_run args).2.1) ∧
    main_resolve ⟨args.input_dir, args.jra55_input, none, none, some v⟩ =
      Except.ok (atm_options, ocean_options, [v]) := by
  refine ⟨?_, ?_, rfl⟩
  · intro hv hmem
    have h := main_resolve_invalid args (Or.inl ⟨v, hv, hmem⟩)
    simp [main_run, h]
  · intro hv hmem
    have h := main_resolve_invalid args (Or.inr ⟨v, hv, hmem⟩)
    simp [main_run, h]

/-- C2 amended, instantiated: `--atm NOPE` exits 1 with the usage text
printed, and `--method bilinear` resolves without validation. -/
theorem C2_amended_filter_validation_witness :
    ((main_run ⟨"indir", "jradir", some "NOPE", none, none⟩).1 = 1 ∧
      usage_text ∈ (main_run ⟨"indir", "jradir", some "NOPE", none, none⟩).2.1) ∧
    main_resolve ⟨"indir", "jradir", none, none, some "bilinear"⟩ =
      Except.ok (atm_options, ocean_options, ["bilinear"]) := by
  have h := C2_amended_filter_validation ⟨"indir", "jradir", some "NOPE", none, none⟩ "NOPE"
  exact ⟨h.1 rfl (by decide), rfl⟩

/-- C3: every invocation with a `--atm` value outside
{CORE2, JRA55, JRA55_runoff} or a `--ocean` value outside
{MOM1, MOM01, MOM025} exits with code 1 and creates no output weight
files. -/
theorem C3_invalid_grid_exit_1 (args : Args)
    (h : (∃ v, args.atm = some v ∧ v ∉ atm_options) ∨
         (∃ v, args.ocean = some v ∧ v ∉ ocean_options)) :
    (main_run args).1 = 1 ∧ (main_run args).2.2 = [] := by
  have hr := main_resolve_invalid args h
  simp [main_run, hr]

/-- C3, instantiated: `--ocean MOM12` exits 1 with no outputs. -/
theorem C3_invalid_grid_exit_1_witness :
    (main_run ⟨"indir", "jradir", none, some "MOM12", none⟩).1 = 1 ∧
    (main_run ⟨"indir", "jradir", none, some "MOM12", none⟩).2.2 = [] :=
  C3_invalid_grid_exit_1 ⟨"indir", "jradir", none, some "MOM12", none⟩
    (Or.inr ⟨"MOM12", rfl, by decide⟩)

/-! ### Helper lemmas about association-list lookup and renaming -/

theorem lookup_cons {β : Type} (a : String) (b : β) (l : List (String × β)) (k : String) :
    ((a, b) :: l).lookup k = if k = a then some b else l.lookup k := by
  by_cases h : k = a
  · simp [List.lookup, h]
  · have hb : (k == a) = false := beq_eq_false_iff_ne.mpr h
    simp [List.lookup, hb, h]

theorem lookup_eq_none_of_not_mem_keys {β : Type} (l : List (String × β)) (k : String)
    (h : k ∉ l.map Prod.fst) : l.lookup k = none := by
  induction l with
  | nil => rfl
  | cons e rest ih =>
    rcases e with ⟨a, b⟩
    simp only [List.map_cons, List.mem_cons, not_or] at h
    rw [lookup_cons, if_neg h.1]
    exact ih h.2

theorem not_mem_keys_of_lookup_none {β : Type} (l : List (String × β)) (k : String)
    (h : l.lookup k = none) : k ∉ l.map Prod.fst := by
  induction l with
  | nil => simp
  | cons e rest ih =>
    rcases e with ⟨a, b⟩
    rw [lookup_cons] at h
    by_cases hk : k = a
    · rw [if_pos hk] at h
      cases h
    · rw [if_neg hk] at h
      simpa [hk] using ih h

theorem lookup_mem_values {β : Type} (l : List (String × β)) (k : String) (y : β)
    (h : l.lookup k = some y) : y ∈ l.map Prod.snd := by
  induction l with
  | nil => cases h
  | cons e rest ih =>
    rcases e with ⟨a, b⟩
    rw [lookup_cons] at h
    by_cases hk : k = a
    · rw [if_pos hk] at h
      injection h with h
      simp [h]
    · rw [if_neg hk] at h
      simpa using Or.inr (ih h)

theorem lookup_of_mem_nodup_keys {β : Type} (l : List (String × β)) (p : String × β)
    (hp : p ∈ l) (hnd : (l.map Prod.fst).Nodup) : l.lookup p.1 = some p.2 := by
  induction l with
  | nil => cases hp
  | cons e rest ih =>
    rcases e with ⟨a, b⟩
    simp only [List.map_cons, List.nodup_cons] at hnd
    rcases List.mem_cons.mp hp with he | hp2
    · subst he
      rw [lookup_cons, if_pos rfl]
    · have hne : p.1 ≠ a := by
        intro he
        exact hnd.1 (he ▸ List.mem_map_of_mem Prod.fst hp2)
      rw [lookup_cons, if_neg hne]
      exact ih hp2 hnd.2

theorem lookup_append_of_none {β : Type} (l1 l2 : List (String × β)) (k : String)
    (h : l1.lookup k = none) : (l1 ++ l2).lookup k = l2.lookup k := by
  induction l1 with
  | nil => rfl
  | cons e rest ih =>
    rcases e with ⟨a, b⟩
    rw [lookup_cons] at h
    by_cases hk : k = a
    · rw [if_pos hk] at h
      cases h
    · rw [if_neg hk] at h
      rw [List.cons_append, lookup_cons, if_neg hk]
      exact ih h

/-- Renaming never produces an old name of the table: a renamed name is
either a new name of the table or a name that was not in the table. -/
theorem rename_with_ne_key (t : List (String × String)) (p : String × String)
    (hp : p ∈ t) (hdisj : ∀ n ∈ t.map Prod.snd, n ∉ t.map Prod.fst) (x : String) :
    rename_with t x ≠ p.1 := by
  have hkey : p.1 ∈ t.map Prod.fst := List.mem_map_of_mem Prod.fst hp
  unfold rename_with
  cases hl : t.lookup x with
  | none =>
    show x ≠ p.1
    intro he
    rw [he] at hl
    exact not_mem_keys_of_lookup_none t p.1 hl hkey
  | some y =>
    show y ≠ p.1
    intro he
    rw [he] at hl
    exact hdisj p.1 (lookup_mem_values t x p.1 hl) hkey

theorem rename_with_eq_of_mem (t : List (String × String)) (p : String × String)
    (hp : p ∈ t) (hnd : (t.map Prod.fst).Nodup) : rename_with t p.1 = p.2 := by
  unfold rename_with
  rw [lookup_of_mem_nodup_keys t p hp hnd]

theorem rename_with_of_not_mem (t : List (String × String)) (x : String)
    (h : x ∉ t.map Prod.fst) : rename_with t x = x := by
  unfold rename_with
  rw [lookup_eq_none_of_not_mem_keys _ _ h]

/-- Old table keys are absent from a renamed entry list. -/
theorem renamed_keys_ne {β : Type} (t : List (String × String)) (l : List (String × β))
    (p : String × String) (hp : p ∈ t)
    (hdisj : ∀ n ∈ t.map Prod.snd, n ∉ t.map Prod.fst) :
    p.1 ∉ (l.map (fun q => (rename_with t q.1, q.2))).map Prod.fst := by
  intro hmem
  simp only [List.map_map, List.mem_map, Function.comp] at hmem
  obtain ⟨q, _, hq⟩ := hmem
  exact rename_with_ne_key t p hp hdisj q.1 hq

/-- A table entry whose old name occurs among the keys has its new name
among the renamed keys. -/
theorem renamed_keys_new_mem {β : Type} (t : List (String × String)) (l : List (String × β))
    (p : String × String) (hp : p ∈ t) (hnd : (t.map Prod.fst).Nodup)
    (hold : p.1 ∈ l.map Prod.fst) :
    p.2 ∈ (l.map (fun q => (rename_with t q.1, q.2))).map Prod.fst := by
  simp only [List.mem_map] at hold
  obtain ⟨q, hqmem, hq⟩ := hold
  simp only [List.map_map, List.mem_map, Function.comp]
  refine ⟨q, hqmem, ?_⟩
  rw [hq, rename_with_eq_of_mem t p hp hnd]

/-- Entries whose key is outside the table (old and new names alike)
are preserved unchanged by the renaming. -/
theorem renamed_entry_preserved {β : Type} (t : List (String × String)) (l : List (String × β))
    (e : String × β) (h1 : e.1 ∉ t.map Prod.fst) (h2 : e.1 ∉ t.map Prod.snd) :
    e ∈ l ↔ e ∈ l.map (fun q => (rename_with t q.1, q.2)) := by
  constructor
  · intro hm
    simp only [List.mem_map]
    exact ⟨e, hm, by rw [rename_with_of_not_mem t e.1 h1]⟩
  · intro hm
    simp only [List.mem_map] at hm
    obtain ⟨q, hqmem, hq⟩ := hm
    cases hl : t.lookup q.1 with
    | none =>
      have hq1 : q.1 = e.1 := by
        have hf := congrArg Prod.fst hq
        simpa [rename_with, hl] using hf
      have hq2 : q.2 = e.2 := by rw [← hq]
      have heq : q = e := Prod.ext_iff.mpr ⟨hq1, hq2⟩
      exact heq ▸ hqmem
    | some y =>
      have hy : y = e.1 := by
        have hf := congrArg Prod.fst hq
        simpa [rename_with, hl] using hf
      exact absurd (hy ▸ lookup_mem_values t q.1 y hl) h2

/-! ### Claim C7 -/

/-- C7 counterexample: the rename table the converter passes to
`ncrename` has 21 entries - 5 dimension renames plus 16 variable
renames - not 16 as claimed. -/
theorem C7_table_has_21_entries :
    dim_rename_table.length = 5 ∧ var_rename_table.length = 16 ∧
    (dim_rename_table ++ var_rename_table).length = 21 ∧
    ¬ (dim_rename_table ++ var_rename_table).length = 16 := by
  decide

/-- C7 amended: the renaming pass is a bijection on a fixed 21-entry
table (5 dimension renames and 16 variable renames, covering grid
sizes, corner counts, link counts, coordinate arrays, masks, areas,
fractions and sparse-matrix row/column indices): old names and new
names are each pairwise distinct and the two sets are disjoint; after
conversion every old name of the table is absent, every new name whose
old name was present is present, and every dimension or variable whose
name is outside the table is preserved unchanged. -/
theorem C7_amended_rename_bijection (f : NcFile) :
    (dim_rename_table ++ var_rename_table).length = 21 ∧
    ((dim_rename_table ++ var_rename_table).map Prod.fst).Nodup ∧
    ((dim_rename_table ++ var_rename_table).map Prod.snd).Nodup ∧
    (∀ n ∈ (dim_rename_table ++ var_rename_table).map Prod.snd,
      n ∉ (dim_rename_table ++ var_rename_table).map Prod.fst) ∧
    (∀ p ∈ dim_rename_table, p.1 ∉ (ncrename_file f).dims.map Prod.fst) ∧
    (∀ p ∈ dim_rename_table, p.1 ∈ f.dims.map Prod.fst →
      p.2 ∈ (ncrename_file f).dims.map Prod.fst) ∧
    (∀ p ∈ var_rename_table, p.1 ∉ (ncrename_file f).vars.map Prod.fst) ∧
    (∀ p ∈ var_rename_table, p.1 ∈ f.vars.map Prod.fst →
      p.2 ∈ (ncrename_file f).vars.map Prod.fst) ∧
    (∀ e : String × Nat, e.1 ∉ dim_rename_table.map Prod.fst →
      e.1 ∉ dim_rename_table.map Prod.snd →
      (e ∈ f.dims ↔ e ∈ (ncrename_file f).dims)) ∧
    (∀ e : String × VarData, e.1 ∉ var_rename_table.map Prod.fst →
      e.1 ∉ var_rename_table.map Prod.snd →
      (e ∈ f.vars ↔ e ∈ (ncrename_file f).vars)) := by
  have hdisjd : ∀ n ∈ dim_rename_table.map Prod.snd,
      n ∉ dim_rename_table.map Prod.fst := by decide
  have hdisjv : ∀ n ∈ var_rename_table.map Prod.snd,
      n ∉ var_rename_table.map Prod.fst := by decide
  have hndd : (dim_rename_table.map Prod.fst).Nodup := by decide
  have hndv : (var_rename_table.map Prod.fst).Nodup := by decide
  refine ⟨by decide, by decide, by decide, by decide, ?_, ?_, ?_, ?_, ?_, ?_⟩
  · intro p hp
    exact renamed_keys_ne dim_rename_table f.dims p hp hdisjd
  · intro p hp hold
    exact renamed_keys_new_mem dim_rename_table f.dims p hp hndd hold
  · intro p hp
    exact renamed_keys_ne var_rename_table f.vars p hp hdisjv
  · intro p hp hold
    exact renamed_keys_new_mem var_rename_table f.vars p hp hndv hold
  · intro e h1 h2
    exact renamed_entry_preserved dim_rename_table f.dims e h1 h2
  · intro e h1 h2
    exact renamed_entry_preserved var_rename_table f.vars e h1 h2

/-- C7 amended, instantiated: in a file with dimension `n_s` and
variable `col`, conversion removes the old names and introduces
`num_links` and `src_address`. -/
theorem C7_amended_rename_bijection_witness :
    "n_s" ∉ (ncrename_file ⟨[("n_s", 4)], [("col", VarData.oneD [1])]⟩).dims.map Prod.fst ∧
    "num_links" ∈ (ncrename_file ⟨[("n_s", 4)], [("col", VarData.oneD [1])]⟩).dims.map Prod.fst ∧
    "col" ∉ (ncrename_file ⟨[("n_s", 4)], [("col", VarData.oneD [1])]⟩).vars.map Prod.fst ∧
    "src_address" ∈ (ncrename_file ⟨[("n_s", 4)], [("col", VarData.oneD [1])]⟩).vars.map Prod.fst := by
  have h := C7_amended_rename_bijection ⟨[("n_s", 4)], [("col", VarData.oneD [1])]⟩
  exact ⟨h.2.2.2.2.1 ("n_s", "num_links") (by decide),
         h.2.2.2.2.2.1 ("n_s", "num_links") (by decide) (by decide),
         h.2.2.2.2.2.2.1 ("col", "src_address") (by decide),
         h.2.2.2.2.2.2.2.1 ("col", "src_address") (by decide) (by decide)⟩

/-! ### Claim C6 -/

/-- Assigning `xs` to the first column of a freshly created
`xs.length × w` array (with at least one column) makes the first
column read back as `xs`. -/
theorem column0_setColumn0_replicate (s : List Int) (w : Nat) (hw : 1 ≤ w) :
    column0 (setColumn0 (List.replicate s.length (List.replicate w createVariable_fill)) s) = s := by
  induction s with
  | nil => rfl
  | cons x xs ih =>
    rcases w with _ | w2
    · omega
    · simpa [setColumn0, column0, List.replicate_succ] using ih

/-- C6: for a well-formed original weight file (its `S` variable has
one value per link, the `num_wgts` dimension is at least 1, and no
`remap_matrix` variable pre-exists), the converter produces a file
whose two-dimensional `remap_matrix` variable has first column equal,
element-for-element, to the original file's `S` array; it deletes the
original file and returns the path of the converted file. -/
theorem C6_remap_matrix_first_column (R : NcrenameBehavior) (f_old : NcFile)
    (s : List Int) (w : Nat) (hR : R.rc = 0)
    (hS : f_old.vars.lookup "S" = some (VarData.oneD s))
    (hlinks : dimSize (ncrename_file f_old) "num_links" = s.length)
    (hwgts : dimSize (ncrename_file f_old) "num_wgts" = w)
    (hw1 : 1 ≤ w)
    (hnew : (ncrename_file f_old).vars.lookup "remap_matrix" = none) :
    convert_to_scrip_output R ⟨[(Path.named "weights.nc", FileContent.nc f_old)], 0⟩
        (Path.named "weights.nc") =
      (Except.ok (Path.temp 0,
        ⟨[(Path.temp 0, FileContent.nc (add_remap_matrix (ncrename_file f_old) f_old))], 1⟩),
       []) ∧
    (add_remap_matrix (ncrename_file f_old) f_old).vars.lookup "remap_matrix" =
      some (VarData.twoD (setColumn0
        (List.replicate s.length (List.replicate w createVariable_fill)) s)) ∧
    column0 (setColumn0 (List.replicate s.length (List.replicate w createVariable_fill)) s) = s ∧
    readFile
        (⟨[(Path.temp 0, FileContent.nc (add_remap_matrix (ncrename_file f_old) f_old))], 1⟩ : FS)
        (Path.named "weights.nc") = none := by
  rcases R with ⟨rrc, rout⟩
  simp only at hR
  subst hR
  refine ⟨rfl, ?_, column0_setColumn0_replicate s w hw1, by simp [readFile, lookupEntry]⟩
  show ((ncrename_file f_old).vars ++
      [("remap_matrix", VarData.twoD (setColumn0
        (List.replicate (dimSize (ncrename_file f_old) "num_links")
          (List.replicate (dimSize (ncrename_file f_old) "num_wgts") createVariable_fill))
        (getS f_old)))]).lookup "remap_matrix" =
    some (VarData.twoD (setColumn0
      (List.replicate s.length (List.replicate w createVariable_fill)) s))
  rw [lookup_append_of_none _ _ _ hnew, lookup_cons, if_pos rfl, hlinks, hwgts]
  simp [getS, hS]

/-- C6, instantiated: a concrete two-link weight file with
`S = [5, 7]` and three weight columns. -/
theorem C6_remap_matrix_first_column_witness :
    convert_to_scrip_output ⟨0, "out"⟩
        ⟨[(Path.named "weights.nc", FileContent.nc
            ⟨[("n_s", 2), ("num_wgts", 3), ("n_a", 4)],
             [("S", VarData.oneD [5, 7]), ("col", VarData.oneD [1, 2]),
              ("row", VarData.oneD [1, 1])]⟩)], 0⟩
        (Path.named "weights.nc") =
      (Except.ok (Path.temp 0,
        ⟨[(Path.temp 0, FileContent.nc
            ⟨[("num_links", 2), ("num_wgts", 3), ("src_grid_size", 4)],
             [("S", VarData.oneD [5, 7]), ("src_address", VarData.oneD [1, 2]),
              ("dst_address", VarData.oneD [1, 1]),
              ("remap_matrix", VarData.twoD [[5, 0, 0], [7, 0, 0]])]⟩)], 1⟩),
       []) ∧
    column0 [[5, 0, 0], [7, 0, 0]] = [5, 7] := by
  have h := C6_remap_matrix_first_column ⟨0, "out"⟩
    ⟨[("n_s", 2), ("num_wgts", 3), ("n_a", 4)],
     [("S", VarData.oneD [5, 7]), ("col", VarData.oneD [1, 2]),
      ("row", VarData.oneD [1, 1])]⟩
    [5, 7] 3 rfl (by decide) (by decide) (by decide) (by decide) (by decide)
  exact ⟨by rw [h.1]; rfl, by decide⟩

/-! ### Claim C8 -/

/-- C8: for every valid (atm, ocean, method) combination, a successful
run of that combination - both external subprocesses exit 0 - starting
from an empty working state leaves exactly one file, the final artifact
`{atm}_{ocean}_{method}.nc` holding the converted weight file: the two
temporary grid-description files, the raw pre-conversion weight file
and the pre-move converted file are all gone. -/
theorem C8_success_single_artifact (E : EsmfBehavior) (R : NcrenameBehavior)
    (src dest : Grid) (atm ocean method : String)
    (ha : atm ∈ atm_options) (ho : ocean ∈ ocean_options) (hm : method ∈ method_options)
    (hE : E.rc = 0) (hR : R.rc = 0) :
    run_combination E R ⟨[], 0⟩ src dest atm ocean method =
      Except.ok ⟨[(Path.named (atm ++ "_" ++ ocean ++ "_" ++ method ++ ".nc"),
        FileContent.nc (add_remap_matrix (ncrename_file E.result) E.result))], 4⟩ := by
  rcases E with ⟨erc, eout, eres, elog⟩
  rcases R with ⟨rrc, rout⟩
  simp only at hE hR
  subst hE
  subst hR
  rfl

/-- C8, instantiated: the CORE2/MOM1/patch combination with a concrete
one-link weight file leaves exactly `CORE2_MOM1_patch.nc`. -/
theorem C8_success_single_artifact_witness :
    run_combination ⟨0, "", ⟨[("n_s", 1), ("num_wgts", 1)], [("S", VarData.oneD [9])]⟩, none⟩
        ⟨0, ""⟩ ⟨[], 0⟩ ⟨[[1]]⟩ ⟨[[0]]⟩ "CORE2" "MOM1" "patch" =
      Except.ok ⟨[(Path.named "CORE2_MOM1_patch.nc",
        FileContent.nc
          ⟨[("num_links", 1), ("num_wgts", 1)],
           [("S", VarData.oneD [9]), ("remap_matrix", VarData.twoD [[9]])]⟩)], 4⟩ := by
  have h := C8_success_single_artifact
    ⟨0, "", ⟨[("n_s", 1), ("num_wgts", 1)], [("S", VarData.oneD [9])]⟩, none⟩
    ⟨0, ""⟩ ⟨[[1]]⟩ ⟨[[0]]⟩ "CORE2" "MOM1" "patch"
    (by decide) (by decide) (by decide) rfl rfl
  rw [h]
  rfl

end MakeRemapWeights
